import Mathlib

/-!
Verification of the `changenow-offramp-pro` backend prototypes.

This file gives a shallow embedding of the webhook-signature verification,
webhook reconciliation, order creation and payout-trigger logic of the
repository, and proves (or refutes) the specification claims about them.

Conventions used throughout:
* Python `bytes` values are embedded as `List Nat` (each entry a byte value);
* Python `str` values are embedded as Lean `String`;
* SQL `REAL` / Python `float` amounts are embedded as exact rationals `ℚ`
  (the claims under scrutiny concern which arithmetic operations are applied,
  not IEEE-754 rounding of individual operations);
* a cryptographic digest (HMAC-SHA256 / HMAC-SHA512 / SHA-256) is an explicit
  function parameter of the embedded code: the claims quantify over it, since
  none of them depends on the internals of the compression function;
* fallible handlers return `Except`, paired with the updated store state.
-/

/-- Lowest hex digit characters, as produced by Python's `bytes.hex` /
`hashlib`'s `hexdigest`: `0`-`9` then lowercase `a`-`f`. -/
def hexDigitChar (n : Nat) : Char :=
  if n < 10 then Char.ofNat (48 + n) else Char.ofNat (87 + n)

/-- One byte rendered as two lowercase hex characters. -/
def byteToHex (b : Nat) : List Char :=
  [hexDigitChar (b / 16 % 16), hexDigitChar (b % 16)]

/-- Embeds `mac.hexdigest()`: the lowercase hex rendering of a digest's bytes. -/
def hexdigest (bs : List Nat) : String :=
  ⟨(bs.map byteToHex).flatten⟩

/-- Embeds `hmac.compare_digest` on strings: a constant-time comparison whose
result (where defined) is string equality. -/
def compareDigest (a b : String) : Bool :=
  a == b

/-- UTF-8 encoding of a single scalar value, as produced by Python's
`str.encode()` for one character. -/
def utf8EncodeChar (c : Char) : List Nat :=
  if c.toNat < 128 then [c.toNat]
  else if c.toNat < 2048 then [192 + c.toNat / 64, 128 + c.toNat % 64]
  else if c.toNat < 65536 then
    [224 + c.toNat / 4096, 128 + c.toNat / 64 % 64, 128 + c.toNat % 64]
  else
    [240 + c.toNat / 262144, 128 + c.toNat / 4096 % 64,
      128 + c.toNat / 64 % 64, 128 + c.toNat % 64]

/-- Embeds Python's `s.encode()` (UTF-8 bytes of a string). -/
def utf8Encode (s : String) : List Nat :=
  (s.data.map utf8EncodeChar).flatten

/-- The accumulator loop of `_secure_compare`'s fallback branch:
`result = 0; for x, y in zip(a, b): result |= x ^ y`. -/
def xorAccum (xs ys : List Nat) : Nat :=
  (List.zip xs ys).foldl (fun r p => r ||| (p.1 ^^^ p.2)) 0

/-- The `except` branch of `_secure_compare` in
`services/api/routers/nowpayments.py`: length check on the character counts,
then a byte-wise XOR accumulation over the zipped UTF-8 encodings. -/
def secure_compare_fallback (a b : String) : Bool :=
  if a.length ≠ b.length then false
  else xorAccum (utf8Encode a) (utf8Encode b) == 0

/-- Embeds `_secure_compare` from `services/api/routers/nowpayments.py`.
In the source the branch taken depends on whether `hmac.compare_digest`
raises at runtime; the boolean selector `fb` ranges over both possible
branches so that theorems quantify over either execution path. -/
def secure_compare (fb : Bool) (a b : String) : Bool :=
  if fb then secure_compare_fallback a b else compareDigest a b

/-- Embeds `verify_hmac_sha256` from `services/api/utils/hmac_verify.py`.
`hmac_sha256` abstracts `hmac.new(secret.encode(), msg=payload, sha256).digest()`
(the raw digest bytes); the function under test guards on empty inputs and
compares the hex digest against the supplied signature. -/
def verify_hmac_sha256 (hmac_sha256 : String → List Nat → List Nat)
    (payload_raw : List Nat) (signature secret : String) : Bool :=
  if signature = "" ∨ secret = "" then false
  else compareDigest (hexdigest (hmac_sha256 secret payload_raw)) signature

-- ### The `main.py` variant: SQLAlchemy store and NOWPayments webhook

/-- Python truthiness of an optional string: `None` and `""` are falsy. -/
def truthy : Option String → Bool
  | none => false
  | some s => !(s == "")

/-- Python's short-circuit `a or b` on optional strings. -/
def pyOr (a b : Option String) : Option String :=
  if truthy a then a else b

/-- Python's `str.lower()` restricted to its ASCII action (sufficient for the
hex digests and headers compared here), written over the character list so it
evaluates by kernel reduction. -/
def pyLower (s : String) : String :=
  ⟨s.data.map Char.toLower⟩

/-- Python's `str.upper()` restricted to its ASCII action, over the character
list. -/
def pyUpper (s : String) : String :=
  ⟨s.data.map Char.toUpper⟩

/-- Python's `s.startswith(pre)`, over the character lists. -/
def pyStartsWith (s pre : String) : Bool :=
  pre.data.isPrefixOf s.data

/-- Dropping the first `n` characters of a string (`s[n:]`). -/
def pyDrop (s : String) (n : Nat) : String :=
  ⟨s.data.drop n⟩

/-- Python's `int(s)` on canonical decimal numerals (the only form the code
itself produces in `order_<id>` external ids), `None` on anything else. -/
def pyToNat? (s : String) : Option Nat :=
  if s.data ≠ [] ∧ s.data.all Char.isDigit then
    some (s.data.foldl (fun a c => a * 10 + (c.toNat - 48)) 0)
  else none

/-- An `orders` row of `main.py` (SQLAlchemy model `Order`). -/
structure OrderRow where
  id : Nat
  created_at : Nat
  token_symbol : String
  amount_tokens : ℚ
  price_eur : ℚ
  eur_amount : ℚ
  payout_channel : String
  wallet_address : Option String
  crypto_asset : Option String
  crypto_network : Option String
  notes : Option String
  status : String
  payout_txid : Option String
deriving DecidableEq

/-- A `prices` row of `main.py` (SQLAlchemy model `Price`). -/
structure PriceRow where
  id : Nat
  token_symbol : String
  price_eur : ℚ
  available_amount : ℚ
  updated_at : Nat
  wallet_address : Option String
  auto_payout_done : Nat
  auto_payout_txid : Option String
  notes : Option String
deriving DecidableEq

/-- A `webhook_events` row of `main.py` (SQLAlchemy model `WebhookEvent`);
the table carries unique constraints on `(provider, signature)` and on
`(provider, body_hash)`. -/
structure EventRow where
  provider : String
  signature : String
  body_hash : String
deriving DecidableEq

/-- The database state of the `main.py` variant. -/
structure MainState where
  orders : List OrderRow
  prices : List PriceRow
  events : List EventRow
deriving DecidableEq

/-- Embeds `verify_nowpayments_signature` from `main.py`: empty header is
rejected, otherwise the lowercased hex HMAC-SHA512 digest is compared with
the lowercased header. `hm512` abstracts
`hmac.new(NP_IPN_SECRET.encode(), raw, sha512).digest()`. -/
def verify_nowpayments_signature (hm512 : String → List Nat → List Nat)
    (secret : String) (raw : List Nat) (signature : String) : Bool :=
  if signature = "" then false
  else compareDigest (pyLower (hexdigest (hm512 secret raw))) (pyLower signature)

/-- Embeds the dedup insert at the top of `nowpayments_webhook`: adding the
`WebhookEvent` row commits, and an `IntegrityError` from either uniqueness
constraint rolls back (`none`). -/
def insertWebhookEvent (st : MainState) (sig bodyHash : String) : Option MainState :=
  if st.events.any fun e =>
      e.provider == "nowpayments" && (e.signature == sig || e.body_hash == bodyHash) then
    none
  else
    some { st with events := st.events ++ [⟨"nowpayments", sig, bodyHash⟩] }

/-- The JSON payload fields read by `nowpayments_webhook` (`json.loads(raw)`),
all optional; `idField` embeds the JSON key `"id"`. -/
structure IpnPayload where
  status : Option String := none
  transaction_id : Option String := none
  txid : Option String := none
  external_id : Option String := none
  order_id : Option String := none
  idField : Option String := none
deriving DecidableEq

/-- Embeds `int(str(external_id).split("order_")[1])` guarded by
`startswith("order_")`, with `None` when parsing fails. (`pyToNat?` matches
Python `int()` on the canonical decimal ids the code itself emits.) -/
def parseOrderId (e : String) : Option Nat :=
  if pyStartsWith e "order_" then pyToNat? (pyDrop e 6) else none

/-- The order-status mapping block of `nowpayments_webhook` (`main.py`
lines 454-461). -/
def applyOrderStatus (ord : OrderRow) (status txid : Option String) : OrderRow :=
  if status = some "finished" then
    { ord with status := "completed",
               payout_txid := if truthy txid then txid else ord.payout_txid }
  else if status = some "processing" ∨ status = some "pending" ∨
      status = some "confirming" then
    { ord with status := "queued" }
  else if status = some "failed" ∨ status = some "canceled" then
    { ord with status := "failed" }
  else ord

def updateOrders (orders : List OrderRow) (oid : Nat) (o1 : OrderRow) : List OrderRow :=
  orders.map fun o => if o.id = oid then o1 else o

def updatePrices (prices : List PriceRow) (sym : String) (p1 : PriceRow) : List PriceRow :=
  prices.map fun p => if p.token_symbol = sym then p1 else p

/-- The JSON responses of `nowpayments_webhook`. -/
inductive WebhookResp where
  | duplicate
  | orderUpdated (order_id : Nat) (new_status : String) (payout_txid : Option String)
  | orderNotFound
  | listingResp (token_symbol : String) (auto_payout_txid : Option String)
      (status : Option String)
  | ignored
deriving DecidableEq

/-- The `oid`-truthy branch of the webhook: look up the order and apply the
provider-status mapping. -/
def orderBranch (st1 : MainState) (o : Nat) (status txid : Option String) :
    Except (Nat × String) WebhookResp × MainState :=
  match st1.orders.find? (fun ord => ord.id == o) with
  | none => (Except.ok WebhookResp.orderNotFound, st1)
  | some ord =>
    let ord1 := applyOrderStatus ord status txid
    (Except.ok (WebhookResp.orderUpdated o ord1.status ord1.payout_txid),
      { st1 with orders := updateOrders st1.orders o ord1 })

/-- The `listing_`-prefix branch and the final `ignored` fallthrough. -/
def listingOrIgnored (st1 : MainState) (external_id : Option String)
    (status txid : Option String) : Except (Nat × String) WebhookResp × MainState :=
  match external_id with
  | some e =>
    if e ≠ "" ∧ pyStartsWith e "listing_" then
      match st1.prices.find? (fun p => p.token_symbol == pyUpper (pyDrop e 8)) with
      | none => (Except.ok WebhookResp.ignored, st1)
      | some p =>
        if status = some "finished" then
          let p1 := { p with
                      auto_payout_done := 1,
                      auto_payout_txid := if truthy txid then txid else p.auto_payout_txid }
          (Except.ok (WebhookResp.listingResp (pyUpper (pyDrop e 8)) p1.auto_payout_txid status),
            { st1 with prices := updatePrices st1.prices p.token_symbol p1 })
        else
          (Except.ok (WebhookResp.listingResp (pyUpper (pyDrop e 8)) p.auto_payout_txid status), st1)
    else (Except.ok WebhookResp.ignored, st1)
  | none => (Except.ok WebhookResp.ignored, st1)

/-- Processing of a verified, parsed webhook payload (`main.py` lines 438-477). -/
def processVerified (st1 : MainState) (payload : IpnPayload) :
    Except (Nat × String) WebhookResp × MainState :=
  let status := payload.status
  let txid := pyOr payload.transaction_id payload.txid
  let external_id := pyOr (pyOr payload.external_id payload.order_id) payload.idField
  let oid : Option Nat :=
    match external_id with
    | none => none
    | some e => if e ≠ "" then parseOrderId e else none
  match oid with
  | some o =>
    if o ≠ 0 then orderBranch st1 o status txid
    else listingOrIgnored st1 external_id status txid
  | none => listingOrIgnored st1 external_id status txid

/-- Embeds `POST /webhooks/nowpayments` from `main.py`: dedup insert first
(committed even when verification later fails), then HMAC-SHA512 check
(401 on failure), then JSON parsing and status reconciliation.
`sha256hex` abstracts `hashlib.sha256(raw).hexdigest()`, `parse` abstracts
`json.loads`. -/
def nowpayments_webhook (hm512 : String → List Nat → List Nat)
    (sha256hex : List Nat → String) (parse : List Nat → Option IpnPayload)
    (secret : String) (st : MainState) (raw : List Nat) (sig : String) :
    Except (Nat × String) WebhookResp × MainState :=
  match insertWebhookEvent st sig (sha256hex raw) with
  | none => (Except.ok WebhookResp.duplicate, st)
  | some st1 =>
    if verify_nowpayments_signature hm512 secret raw sig then
      match parse raw with
      | none => (Except.error (500, "invalid JSON body"), st1)
      | some payload => processVerified st1 payload
    else
      (Except.error (401, "Invalid signature"), st1)

-- ### The router variant: `services/api/routers/offramp.py` (sqlite store)

/-- Python's `s or ""` for an optional string (both `None` and `""` give `""`). -/
def pyStrOrEmpty (o : Option String) : String :=
  o.getD ""

/-- An `otc_listings` row. -/
structure Listing where
  token_symbol : String
  price_eur : ℚ
  available_amount : ℚ
  updated_at : Nat
deriving DecidableEq

/-- A `sales` row. -/
structure Sale where
  id : Nat
  token_symbol : String
  amount_tokens : ℚ
  price_eur : ℚ
  eur_amount : ℚ
  iban : String
  beneficiary_name : String
  status : String
  nowpayments_payout_id : Option String
  redirect_url : String
  created_at : Nat
  updated_at : Nat
deriving DecidableEq

/-- The sqlite database of the router variant. -/
structure OfframpState where
  listings : List Listing
  sales : List Sale
deriving DecidableEq

/-- `cur.lastrowid` for an `INTEGER PRIMARY KEY AUTOINCREMENT` insert: one more
than the largest id in use. -/
def nextSaleId (sales : List Sale) : Nat :=
  (sales.map Sale.id).foldr max 0 + 1

/-- The `CreateOrderIn` body of the router (default `redirect_url` is `""`). -/
structure CreateOrderIn where
  token_symbol : String
  amount_tokens : ℚ
  iban : String
  beneficiary_name : String
  redirect_url : Option String := some ""
deriving DecidableEq

/-- The JSON returned by the router's `create_order`. -/
structure CreateOrderResp where
  order_id : Nat
  status : String
  eur_amount : ℚ
  price_eur : ℚ
  token_symbol : String
  redirect_url : String
deriving DecidableEq

/-- Embeds `POST /offramp/create-order` from `services/api/routers/offramp.py`:
404 when the upper-cased token has no `otc_listings` row, otherwise inserts a
`sales` row with status `created`, `price_eur` from the listing and
`eur_amount = price_eur * amount_tokens`. -/
def create_order (now : Nat) (st : OfframpState) (body : CreateOrderIn) :
    Except (Nat × String) CreateOrderResp × OfframpState :=
  match st.listings.find? (fun l => l.token_symbol == pyUpper body.token_symbol) with
  | none => (Except.error (404, "Listing non trovato"), st)
  | some row =>
    (Except.ok { order_id := nextSaleId st.sales, status := "created",
                 eur_amount := row.price_eur * body.amount_tokens,
                 price_eur := row.price_eur, token_symbol := pyUpper body.token_symbol,
                 redirect_url := pyStrOrEmpty body.redirect_url },
     { st with sales := st.sales ++
        [{ id := nextSaleId st.sales, token_symbol := pyUpper body.token_symbol,
           amount_tokens := body.amount_tokens, price_eur := row.price_eur,
           eur_amount := row.price_eur * body.amount_tokens, iban := body.iban,
           beneficiary_name := body.beneficiary_name, status := "created",
           nowpayments_payout_id := none, redirect_url := pyStrOrEmpty body.redirect_url,
           created_at := now, updated_at := now }] })

-- ### NOWPayments outbound calls

/-- One entry of a provider JSON response's `withdrawals`/`payouts` array
(`idField` embeds the JSON key `"id"`). -/
structure WEntry where
  idField : Option String := none
  payout_id : Option String := none
deriving DecidableEq

/-- The decoded JSON body of a NOWPayments response (`r.json()` or
`{"raw": r.text}`), restricted to the keys the code reads. -/
structure NPData where
  payout_id : Option String := none
  idField : Option String := none
  withdrawals : Option (List WEntry) := none
  payouts : Option (List WEntry) := none
deriving DecidableEq

/-- An HTTP response from the provider: status code and decoded body. -/
structure HttpResponse where
  status : Nat
  data : NPData
deriving DecidableEq

/-- A JSON scalar appearing in the withdrawal dicts the code builds: the code
writes strings and floats into them, and `NOWPAYMENTS_BANK_EXTRA_JSON` may
contribute either. -/
inductive JVal where
  | s (v : String)
  | n (v : ℚ)
deriving DecidableEq

/-- A Python dict as an insertion-ordered association list with unique keys
(the only dicts built here are literals, so the invariant holds by
construction). -/
def dictSet (d : List (String × JVal)) (k : String) (v : JVal) :
    List (String × JVal) :=
  if d.any (fun p => p.1 == k) then d.map fun p => if p.1 = k then (k, v) else p
  else d ++ [(k, v)]

/-- Python's `d.update(e)`: each key of `e` overwrites or is appended, in
order. -/
def dictUpdate (d e : List (String × JVal)) : List (String × JVal) :=
  e.foldl (fun acc p => dictSet acc p.1 p.2) d

/-- Python's `d.get(k)` / `d[k]`. -/
def dictGet (d : List (String × JVal)) (k : String) : Option JVal :=
  (d.find? fun p => p.1 == k).map Prod.snd

/-- The `{"payouts": [...]}` request body of the router's payout call; each
entry is the merged withdrawal dict. -/
structure PayoutPayload where
  payouts : List (List (String × JVal))
deriving DecidableEq

/-- Embeds `_call_nowpayments_payout`: POST `/payout`, accept on 200/201,
otherwise POST the identical payload to `/payouts`, accept on 200/201,
otherwise raise 502 carrying both decoded bodies and both status codes.
`r1`/`r2` are the provider's responses to the two possible calls; the second
component records the POSTs actually issued, in order. -/
def call_nowpayments_payout (baseUrl : String) (payload : PayoutPayload)
    (r1 r2 : HttpResponse) :
    Except (NPData × NPData × Nat × Nat) NPData × List (String × PayoutPayload) :=
  if r1.status = 200 ∨ r1.status = 201 then
    (Except.ok r1.data, [(baseUrl ++ "/payout", payload)])
  else if r2.status = 200 ∨ r2.status = 201 then
    (Except.ok r2.data, [(baseUrl ++ "/payout", payload), (baseUrl ++ "/payouts", payload)])
  else
    (Except.error (r1.data, r2.data, r1.status, r2.status),
     [(baseUrl ++ "/payout", payload), (baseUrl ++ "/payouts", payload)])

/-- Python `a or b or []` over the two optional entry lists (an empty list is
falsy), then the guarded first-entry extraction. Embeds lines 245-254 of the
router: `res.get("payout_id") or res.get("id")`, falling back to the first
entry of `withdrawals`/`payouts`. -/
def extractPayoutId (res : NPData) : Option String :=
  let p1 := pyOr res.payout_id res.idField
  let p2 :=
    if truthy p1 then p1
    else
      match (if res.withdrawals = none ∨ res.withdrawals = some [] then
               res.payouts else res.withdrawals).getD [] with
      | [] => p1
      | first :: _ => pyOr first.idField first.payout_id
  if truthy p2 then p2 else none

/-- `f"Offramp order #{order_id} - {beneficiary_name}"`. -/
def triggerDescription (order_id : Nat) (name : String) : String :=
  "Offramp order #" ++ toString order_id ++ " - " ++ name

/-- The withdrawal dict literal built by the router's `trigger_payout`
(offramp.py lines 213-218), before the bank-extra merge. -/
def baseWithdrawal (order_id : Nat) (sale : Sale) : List (String × JVal) :=
  [("currency", JVal.s "eur"), ("amount", JVal.n sale.eur_amount),
   ("address", JVal.s sale.iban),
   ("withdrawal_description", JVal.s (triggerDescription order_id sale.beneficiary_name))]

/-- The payout payload built by the router's `trigger_payout` for a sale:
the withdrawal dict with the decoded `NOWPAYMENTS_BANK_EXTRA_JSON` fields
merged via `withdrawal.update(extra)` — the merge may overwrite any key,
including `amount`. -/
def payoutPayloadOf (bankExtra : List (String × JVal)) (order_id : Nat)
    (sale : Sale) : PayoutPayload :=
  { payouts := [dictUpdate (baseWithdrawal order_id sale) bankExtra] }

/-- The error details raised by the router's `trigger_payout`. -/
inductive TriggerDetail where
  | notFound
  | missingFields
  | providerError (response1 response2 : NPData) (status1 status2 : Nat)
  | noPayoutId (raw : NPData)
deriving DecidableEq

/-- The JSON returned by the router's `trigger_payout`. -/
inductive TriggerResp where
  | row (sale : Sale)
  | updated (sale : Sale) (provider_raw : NPData)
deriving DecidableEq

/-- Embeds `POST /offramp/trigger-payout/{order_id}` from the router:
404 on a missing sale; the idempotency guard returns the stored row untouched
when the status is neither `created` nor `failed`; 400 on missing bank fields;
then one call to `_call_nowpayments_payout`, propagating its 502 unchanged;
502 when a 2xx response carries no payout id; otherwise the sale becomes
`payout_pending` with the payout id stored. The third component records the
POSTs issued. -/
def trigger_payout (now : Nat) (bankExtra : List (String × JVal)) (baseUrl : String)
    (st : OfframpState) (order_id : Nat) (r1 r2 : HttpResponse) :
    Except (Nat × TriggerDetail) TriggerResp × OfframpState × List (String × PayoutPayload) :=
  match st.sales.find? (fun s => s.id == order_id) with
  | none => (Except.error (404, TriggerDetail.notFound), st, [])
  | some sale =>
    if sale.status ≠ "created" ∧ sale.status ≠ "failed" then
      (Except.ok (TriggerResp.row sale), st, [])
    else if sale.iban = "" ∨ sale.beneficiary_name = "" then
      (Except.error (400, TriggerDetail.missingFields), st, [])
    else
      match call_nowpayments_payout baseUrl (payoutPayloadOf bankExtra order_id sale) r1 r2 with
      | (Except.error (d1, d2, s1, s2), reqs) =>
        (Except.error (502, TriggerDetail.providerError d1 d2 s1 s2), st, reqs)
      | (Except.ok res, reqs) =>
        match extractPayoutId res with
        | none => (Except.error (502, TriggerDetail.noPayoutId res), st, reqs)
        | some pid =>
          (Except.ok (TriggerResp.updated
              { sale with nowpayments_payout_id := some pid, status := "payout_pending",
                          updated_at := now } res),
           { st with sales := st.sales.map fun s =>
              if s.id = order_id then
                { sale with nowpayments_payout_id := some pid, status := "payout_pending",
                            updated_at := now }
              else s }, reqs)

-- ### `services/api/services/nowpayments.py`: NowPaymentsClient

/-- The `{"withdrawals": [...]}` payload (`payload_v1`); each entry is the
merged withdrawal dict. -/
structure ClientPayload where
  withdrawals : List (List (String × JVal))
deriving DecidableEq

/-- Embeds `NowPaymentsClient._build_withdrawal`: the withdrawal dict literal
(services/nowpayments.py lines 79-85) with the decoded
`NOWPAYMENTS_BANK_EXTRA_JSON` fields merged via `wd.update(extra)`, which may
overwrite any key. -/
def build_withdrawal (bankExtra : List (String × JVal)) (amount_eur : ℚ)
    (iban beneficiary_name reference : String) : List (String × JVal) :=
  dictUpdate
    [("amount", JVal.n amount_eur), ("currency", JVal.s "eur"),
     ("address", JVal.s iban), ("extra_id", JVal.s beneficiary_name),
     ("custom_id", JVal.s reference)]
    bankExtra

/-- Embeds `NowPaymentsClient.create_bank_payout`: POST `/payout`; on a
`NowPaymentsError` with status 404/405/422 retry the identical payload once on
`/payouts`; any other status `>= 400` is raised without a second attempt
(`_post_json` raises exactly when `r.status_code >= 400`). The second
component records the POSTs issued, in order. -/
def create_bank_payout (bankExtra : List (String × JVal)) (amount_eur : ℚ)
    (iban beneficiary_name reference : String) (r1 r2 : HttpResponse) :
    Except (Nat × NPData) NPData × List (String × ClientPayload) :=
  if 400 ≤ r1.status then
    if r1.status = 404 ∨ r1.status = 405 ∨ r1.status = 422 then
      if 400 ≤ r2.status then
        (Except.error (r2.status, r2.data),
         [("/payout", { withdrawals := [build_withdrawal bankExtra amount_eur iban beneficiary_name reference] }),
          ("/payouts", { withdrawals := [build_withdrawal bankExtra amount_eur iban beneficiary_name reference] })])
      else
        (Except.ok r2.data,
         [("/payout", { withdrawals := [build_withdrawal bankExtra amount_eur iban beneficiary_name reference] }),
          ("/payouts", { withdrawals := [build_withdrawal bankExtra amount_eur iban beneficiary_name reference] })])
    else
      (Except.error (r1.status, r1.data),
       [("/payout", { withdrawals := [build_withdrawal bankExtra amount_eur iban beneficiary_name reference] })])
  else
    (Except.ok r1.data,
     [("/payout", { withdrawals := [build_withdrawal bankExtra amount_eur iban beneficiary_name reference] })])

-- ### The router IPN webhook: `services/api/routers/nowpayments.py`

/-- The JSON fields read by the router IPN handler (`idField` embeds the JSON
key `"id"`; `extra_order_id` embeds `payload.get("extra", {}).get("order_id")`). -/
structure RouterPayload where
  payout_id : Option String := none
  idField : Option String := none
  payout_status : Option String := none
  extra_order_id : Option Nat := none
deriving DecidableEq

/-- The JSON returned by the router IPN handler. -/
structure IpnResp where
  order_id : Nat
  status : String
  payout_id : Option String
deriving DecidableEq

/-- `str(payload.get("payout_id", "")) or str(payload.get("id", ""))`. -/
def payout_id_of (p : RouterPayload) : String :=
  if pyStrOrEmpty p.payout_id ≠ "" then pyStrOrEmpty p.payout_id
  else pyStrOrEmpty p.idField

/-- Embeds `_compute_sig`: empty string when no secret is configured, else the
hex HMAC-SHA256 digest of the raw body (`hm` abstracts the digest bytes). -/
def compute_sig (hm : String → List Nat → List Nat) (secret env : String)
    (raw : List Nat) : String :=
  if (if secret ≠ "" then secret else env) = "" then ""
  else hexdigest (hm (if secret ≠ "" then secret else env) raw)

/-- Embeds `POST /offramp/webhooks/nowpayments` (`nowpayments_ipn`):
500 without a configured secret, 401 unless the header passes
`_secure_compare` against `_compute_sig(raw)`, 400 on unparsable JSON,
422 without `extra.order_id`, then the order update.
The order store helpers `_get_order` / `_update_order` are imported from a
module revision that is absent from the repository snapshot; they are
modelled from the spec: `_get_order` looks an Order up by id (failing when it
does not exist) and `_update_order` assigns the given fields. -/
def nowpayments_ipn (fb : Bool) (hm : String → List Nat → List Nat)
    (secret env : String) (parse : List Nat → Option RouterPayload)
    (st : OfframpState) (raw : List Nat) (sig : String) :
    Except (Nat × String) IpnResp × OfframpState :=
  if secret = "" ∧ env = "" then (Except.error (500, "IPN secret non configurato"), st)
  else
    if compute_sig hm secret env raw = "" ∨ sig = "" ∨
        secure_compare fb (compute_sig hm secret env raw) sig = false then
      (Except.error (401, "Firma IPN non valida"), st)
    else
      match parse raw with
      | none => (Except.error (400, "Body IPN non è JSON"), st)
      | some payload =>
        match payload.extra_order_id with
        | none => (Except.error (422, "IPN senza extra.order_id"), st)
        | some oid =>
          if oid = 0 then (Except.error (422, "IPN senza extra.order_id"), st)
          else
            match st.sales.find? (fun s => s.id == oid) with
            | none => (Except.error (404, "Ordine non trovato"), st)
            | some order =>
              let order1 :=
                if payout_id_of payload ≠ "" ∧ truthy order.nowpayments_payout_id = false then
                  { order with nowpayments_payout_id := some (payout_id_of payload) }
                else order
              let order2 :=
                if pyLower (pyStrOrEmpty payload.payout_status) = "finished" then
                  { order1 with status := "completed" }
                else order1
              (Except.ok { order_id := oid, status := order2.status,
                           payout_id := order2.nowpayments_payout_id },
               { st with sales := st.sales.map fun s => if s.id = oid then order2 else s })

-- ### Amount arithmetic (claim C8)

/-- `max(0, min(2000, slippage_bps))` from `main.py`. -/
def slippage_clamp (bps : Int) : Int :=
  max 0 (min 2000 bps)

/-- `crypto_to_send = estimated_crypto * (1.0 + bps / 10_000.0)` from
`main.py` (`auto_payout_on_listing` and `trigger_payout`). -/
def crypto_to_send (estimated_crypto : ℚ) (slippage_bps : Int) : ℚ :=
  estimated_crypto * (1 + (slippage_clamp slippage_bps : ℚ) / 10000)

/-- Python 3 `round` to an integer: nearest, ties to even. -/
def python_round_half_even (q : ℚ) : Int :=
  if q - ⌊q⌋ < 1 / 2 then ⌊q⌋
  else if 1 / 2 < q - ⌊q⌋ then ⌊q⌋ + 1
  else if ⌊q⌋ % 2 = 0 then ⌊q⌋ else ⌊q⌋ + 1

/-- The `amount` field sent by `stripe_create_payout` in
`server_card_payout.py`: `int(round(amount_eur * 100))`. -/
def stripe_payout_amount_cents (amount_eur : ℚ) : Int :=
  python_round_half_even (amount_eur * 100)

/-- The crypto-amount computation of `main.py`'s `trigger_payout`
(lines 379-391): the caller-supplied `crypto_amount` if present, else
`est * (1.0 + bps / 10_000.0)` with `bps = max(0, min(2000, slippage_bps))`;
`float(...)` is then applied and the result becomes the `amount` of the payout
request body unchanged. -/
def main_trigger_payout_amount (crypto_amount : Option ℚ) (slippage_bps : Int)
    (est : ℚ) : ℚ :=
  match crypto_amount with
  | some a => a
  | none => est * (1 + ((max 0 (min 2000 slippage_bps) : Int) : ℚ) / 10000)

/-- The amount slice of `auto_payout_on_listing` (`main.py` lines 240-254):
`eur_total = price_eur * available_amount`, then
`crypto_to_send = estimated * (1.0 + bps / 10_000.0)`, sent unchanged;
`convert` abstracts `nowpayments_convert_eur_to_crypto`. -/
def auto_payout_sent_amount (convert : ℚ → ℚ) (price_eur available_amount : ℚ)
    (slippage_bps : Int) : ℚ :=
  convert (price_eur * available_amount) *
    (1 + ((max 0 (min 2000 slippage_bps) : Int) : ℚ) / 10000)

-- ### Lemmas and claim theorems

-- ### Helper lemmas about the byte-wise comparison

lemma xorAccum_foldl_shift (l : List (Nat × Nat)) (a : Nat) :
    l.foldl (fun r p => r ||| (p.1 ^^^ p.2)) a
      = a ||| l.foldl (fun r p => r ||| (p.1 ^^^ p.2)) 0 := by
  induction l generalizing a with
  | nil => simp
  | cons p l ih =>
    simp only [List.foldl_cons]
    rw [ih (a ||| (p.1 ^^^ p.2)), ih ((0 : Nat) ||| (p.1 ^^^ p.2))]
    simp [Nat.or_assoc]

lemma nat_or_eq_zero_iff (a b : Nat) : a ||| b = 0 ↔ a = 0 ∧ b = 0 := by
  constructor
  · intro h
    have ha : a = 0 := Nat.eq_of_testBit_eq fun i => by
      have := congrArg (fun n => Nat.testBit n i) h
      simp only [Nat.testBit_lor, Nat.zero_testBit, Bool.or_eq_false_iff] at this
      simp [this.1]
    have hb : b = 0 := Nat.eq_of_testBit_eq fun i => by
      have := congrArg (fun n => Nat.testBit n i) h
      simp only [Nat.testBit_lor, Nat.zero_testBit, Bool.or_eq_false_iff] at this
      simp [this.2]
    exact ⟨ha, hb⟩
  · rintro ⟨rfl, rfl⟩
    rfl

lemma xorAccum_eq_zero (xs ys : List Nat) :
    xorAccum xs ys = 0 ↔ ∀ p ∈ List.zip xs ys, p.1 = p.2 := by
  unfold xorAccum
  generalize List.zip xs ys = l
  induction l with
  | nil => simp
  | cons p l ih =>
    simp only [List.foldl_cons, Nat.zero_or]
    rw [xorAccum_foldl_shift, nat_or_eq_zero_iff]
    constructor
    · rintro ⟨h1, h2⟩ q hq
      rcases List.mem_cons.mp hq with rfl | hq
      · exact Nat.xor_eq_zero.mp h1
      · exact ih.mp h2 q hq
    · intro h
      exact ⟨Nat.xor_eq_zero.mpr (h p (List.mem_cons_self p l)),
        ih.mpr fun q hq => h q (List.mem_cons_of_mem _ hq)⟩

lemma char_toNat_lt (c : Char) : c.toNat < 1114112 := by
  rcases c.valid with h | ⟨_, h⟩
  · have h1 : c.val.toNat < 55296 := UInt32.toNat_lt_of_lt (by norm_num) h
    have : c.toNat = c.val.toNat := rfl
    omega
  · have h1 : c.val.toNat < 1114112 := UInt32.toNat_lt_of_lt (by norm_num) h
    have : c.toNat = c.val.toNat := rfl
    omega

lemma utf8EncodeChar_ne_nil (c : Char) : utf8EncodeChar c ≠ [] := by
  unfold utf8EncodeChar
  split_ifs <;> simp

lemma utf8EncodeChar_head_len (c d : Char)
    (h : (utf8EncodeChar c).head? = (utf8EncodeChar d).head?) :
    (utf8EncodeChar c).length = (utf8EncodeChar d).length := by
  have hc := char_toNat_lt c
  have hd := char_toNat_lt d
  unfold utf8EncodeChar at h ⊢
  split_ifs at h ⊢ <;> simp_all <;> omega

lemma utf8EncodeChar_injective (c d : Char)
    (h : utf8EncodeChar c = utf8EncodeChar d) : c = d := by
  have hc := char_toNat_lt c
  have hd := char_toNat_lt d
  have hval : c.toNat = d.toNat := by
    unfold utf8EncodeChar at h
    split_ifs at h <;> simp_all <;> omega
  exact Char.ext (by
    have : c.val.toNat = d.val.toNat := hval
    exact UInt32.toNat.inj this)

/-- All zipped pairs of two equal-length lists agree exactly when the lists
are equal. -/
lemma zip_all_eq_iff (xs : List Nat) : ∀ ys : List Nat, xs.length = ys.length →
    ((∀ p ∈ List.zip xs ys, p.1 = p.2) ↔ xs = ys) := by
  induction xs with
  | nil =>
    intro ys h
    cases ys with
    | nil => simp
    | cons y ys => simp at h
  | cons x xs ih =>
    intro ys h
    cases ys with
    | nil => simp at h
    | cons y ys =>
      have hlen : xs.length = ys.length := by simpa using h
      constructor
      · intro hall
        have hxy : x = y := hall (x, y) (by simp)
        have hxs : xs = ys := (ih ys hlen).mp fun p hp => hall p (by simp [hp])
        rw [hxy, hxs]
      · intro heq p hp
        injection heq with h1 h2
        subst h1
        subst h2
        rcases List.mem_cons.mp (by simpa [List.zip_cons_cons] using hp) with rfl | hp'
        · rfl
        · exact (ih xs rfl).mpr rfl p hp'

lemma zip_all_eq_append (xs : List Nat) : ∀ ys r1 r2 : List Nat,
    xs.length = ys.length →
    ((∀ p ∈ List.zip (xs ++ r1) (ys ++ r2), p.1 = p.2) ↔
      (xs = ys ∧ ∀ p ∈ List.zip r1 r2, p.1 = p.2)) := by
  induction xs with
  | nil =>
    intro ys r1 r2 h
    cases ys with
    | nil => simp
    | cons y ys => simp at h
  | cons x xs ih =>
    intro ys r1 r2 h
    cases ys with
    | nil => simp at h
    | cons y ys =>
      have hlen : xs.length = ys.length := by simpa using h
      simp only [List.cons_append, List.zip_cons_cons, List.mem_cons]
      constructor
      · intro hall
        have hxy : x = y := hall (x, y) (Or.inl rfl)
        have hrest := (ih ys r1 r2 hlen).mp fun p hp => hall p (Or.inr hp)
        exact ⟨by rw [hxy, hrest.1], hrest.2⟩
      · rintro ⟨hcons, hr⟩ p hp
        injection hcons with h1 h2
        rcases hp with rfl | hp
        · exact h1
        · exact (ih ys r1 r2 hlen).mpr ⟨h2, hr⟩ p hp

/-- Key UTF-8 fact behind the fallback comparison: for character lists of
equal length, byte-wise agreement of the zipped UTF-8 encodings is exactly
equality of the lists (UTF-8 is a prefix code, so zip truncation is harmless). -/
lemma utf8_zip_agree_iff (a b : List Char) (h : a.length = b.length) :
    (∀ p ∈ List.zip ((a.map utf8EncodeChar).flatten) ((b.map utf8EncodeChar).flatten),
        p.1 = p.2) ↔ a = b := by
  induction a generalizing b with
  | nil => cases b <;> simp_all
  | cons c a ih =>
    cases b with
    | nil => simp_all
    | cons d b =>
      simp only [List.map_cons, List.flatten_cons]
      constructor
      · intro hall
        obtain ⟨hc0, tc, hc⟩ := List.exists_cons_of_ne_nil (utf8EncodeChar_ne_nil c)
        obtain ⟨hd0, td, hd⟩ := List.exists_cons_of_ne_nil (utf8EncodeChar_ne_nil d)
        have hhead : hc0 = hd0 := by
          apply hall (hc0, hd0)
          simp [hc, hd, List.cons_append, List.zip_cons_cons]
        have hlen : (utf8EncodeChar c).length = (utf8EncodeChar d).length := by
          apply utf8EncodeChar_head_len
          rw [hc, hd, hhead]
          simp
        have hsplit := (zip_all_eq_append (utf8EncodeChar c) (utf8EncodeChar d)
          ((a.map utf8EncodeChar).flatten) ((b.map utf8EncodeChar).flatten) hlen).mp hall
        have hcd : c = d := utf8EncodeChar_injective c d hsplit.1
        have hab : a = b := (ih b (by simpa using h)).mp hsplit.2
        simp [hcd, hab]
      · rintro h'
        injection h' with h1 h2
        subst h1; subst h2
        intro p hp
        exact (zip_all_eq_iff _ _ rfl).mpr rfl p hp

lemma string_data_inj (a b : String) (h : a.data = b.data) : a = b := by
  cases a
  cases b
  exact congrArg String.mk h

lemma secure_compare_fallback_eq (a b : String) :
    secure_compare_fallback a b = (a == b) := by
  unfold secure_compare_fallback
  by_cases hlen : a.length = b.length
  · have hlen' : a.data.length = b.data.length := hlen
    have hiff : (xorAccum (utf8Encode a) (utf8Encode b) = 0) ↔ a = b := by
      rw [xorAccum_eq_zero]
      unfold utf8Encode
      rw [utf8_zip_agree_iff a.data b.data hlen']
      exact ⟨fun h => string_data_inj a b h, fun h => by rw [h]⟩
    rw [if_neg (by simp [hlen])]
    by_cases hab : a = b
    · rw [beq_iff_eq.mpr (hiff.mpr hab), beq_iff_eq.mpr hab]
    · have h1 : (xorAccum (utf8Encode a) (utf8Encode b) == 0) = false :=
        beq_eq_false_iff_ne.mpr fun h0 => hab (hiff.mp h0)
      have h2 : (a == b) = false := beq_eq_false_iff_ne.mpr hab
      rw [h1, h2]
  · have hab : a ≠ b := fun h => hlen (by rw [h])
    rw [if_pos (by simpa using hlen), (beq_eq_false_iff_ne.mpr hab :)]

/-- C10: both comparison paths inside `_secure_compare` decide string
equality, and agree with each other on every input. -/
theorem C10_secure_compare_decides_eq (fb : Bool) (a b : String) :
    (secure_compare fb a b = true ↔ a = b) ∧
      secure_compare true a b = secure_compare false a b := by
  unfold secure_compare
  constructor
  · cases fb <;> simp [secure_compare_fallback_eq, compareDigest]
  · simp [secure_compare_fallback_eq, compareDigest]

/-- C1: `verify_hmac_sha256` accepts exactly when the secret and signature are
non-empty and the signature equals the lowercase hex digest of the HMAC-SHA256
of the payload under the secret; in particular it rejects whenever the
signature or the secret is the empty string. -/
theorem C1_verify_hmac_sha256_iff (hm : String → List Nat → List Nat)
    (payload : List Nat) (sig secret : String) :
    verify_hmac_sha256 hm payload sig secret = true ↔
      (secret ≠ "" ∧ sig ≠ "" ∧ sig = hexdigest (hm secret payload)) := by
  unfold verify_hmac_sha256 compareDigest
  by_cases hs : sig = ""
  · simp [hs]
  · by_cases hsec : secret = ""
    · simp [hs, hsec]
    · rw [if_neg (by simp [hs, hsec])]
      simp only [beq_iff_eq]
      constructor
      · intro h
        exact ⟨hsec, hs, h.symm⟩
      · rintro ⟨-, -, h⟩
        exact h.symm

lemma insertWebhookEvent_some (st : MainState) (sig h : String) (st1 : MainState)
    (hins : insertWebhookEvent st sig h = some st1) :
    st1.events = st.events ++ [⟨"nowpayments", sig, h⟩] := by
  unfold insertWebhookEvent at hins
  split at hins
  · simp at hins
  · cases hins
    rfl

lemma processVerified_events (st1 : MainState) (payload : IpnPayload) :
    (processVerified st1 payload).2.events = st1.events := by
  unfold processVerified orderBranch listingOrIgnored
  dsimp only
  repeat' split
  all_goals rfl

lemma webhook_events_after (hm512 : String → List Nat → List Nat)
    (sha : List Nat → String) (parse : List Nat → Option IpnPayload)
    (secret : String) (st : MainState) (raw : List Nat) (sig : String)
    (st1 : MainState) (hins : insertWebhookEvent st sig (sha raw) = some st1) :
    (nowpayments_webhook hm512 sha parse secret st raw sig).2.events = st1.events := by
  unfold nowpayments_webhook
  rw [hins]
  dsimp only
  split
  · split
    · rfl
    · exact processVerified_events _ _
  · rfl

/-- C3: redelivering the same raw body (with the same header) to
`POST /webhooks/nowpayments` is detected by the uniqueness constraints of the
stored `WebhookEvent`, acknowledged as a duplicate without processing, and
leaves the whole store (all `Order` and `Price` rows included) exactly as it
was after the first delivery. -/
theorem C3_webhook_second_delivery_duplicate
    (hm512 : String → List Nat → List Nat) (sha : List Nat → String)
    (parse : List Nat → Option IpnPayload) (secret : String)
    (st : MainState) (raw : List Nat) (sig : String) :
    (nowpayments_webhook hm512 sha parse secret
        (nowpayments_webhook hm512 sha parse secret st raw sig).2 raw sig).1
      = Except.ok WebhookResp.duplicate ∧
    (nowpayments_webhook hm512 sha parse secret
        (nowpayments_webhook hm512 sha parse secret st raw sig).2 raw sig).2
      = (nowpayments_webhook hm512 sha parse secret st raw sig).2 := by
  cases hins : insertWebhookEvent st sig (sha raw) with
  | none =>
    have hfst : nowpayments_webhook hm512 sha parse secret st raw sig
        = (Except.ok WebhookResp.duplicate, st) := by
      unfold nowpayments_webhook
      rw [hins]
    rw [hfst]
    unfold nowpayments_webhook
    rw [hins]
    exact ⟨rfl, rfl⟩
  | some st1 =>
    have hev1 : st1.events = st.events ++ [⟨"nowpayments", sig, sha raw⟩] :=
      insertWebhookEvent_some st sig (sha raw) st1 hins
    set s1 := (nowpayments_webhook hm512 sha parse secret st raw sig).2 with hs1
    have hev2 : s1.events = st1.events :=
      webhook_events_after hm512 sha parse secret st raw sig st1 hins
    have hconf : insertWebhookEvent s1 sig (sha raw) = none := by
      unfold insertWebhookEvent
      rw [if_pos]
      rw [List.any_eq_true]
      refine ⟨⟨"nowpayments", sig, sha raw⟩, ?_, by simp⟩
      rw [hev2, hev1]
      simp
    unfold nowpayments_webhook
    rw [hconf]
    exact ⟨rfl, rfl⟩

/-- C4: on a first-delivery, signature-verified webhook whose `external_id`
has the form `order_<id>` for an existing order, the handler maps the provider
status onto the order exactly as claimed: `finished` sets `completed`
(recording the transaction id when present), `processing`/`pending`/`confirming`
set `queued`, `failed`/`canceled` set `failed`, anything else leaves the
status unchanged. -/
theorem C4_webhook_order_status_mapping
    (hm512 : String → List Nat → List Nat) (sha : List Nat → String)
    (parse : List Nat → Option IpnPayload) (secret : String)
    (st st1 : MainState) (raw : List Nat) (sig : String)
    (payload : IpnPayload) (e : String) (oid : Nat) (ord : OrderRow)
    (hins : insertWebhookEvent st sig (sha raw) = some st1)
    (hver : verify_nowpayments_signature hm512 secret raw sig = true)
    (hparse : parse raw = some payload)
    (hext : pyOr (pyOr payload.external_id payload.order_id) payload.idField = some e)
    (hpre : pyStartsWith e "order_" = true)
    (hoid : pyToNat? (pyDrop e 6) = some oid)
    (hnz : oid ≠ 0)
    (hfind : st1.orders.find? (fun o => o.id == oid) = some ord) :
    nowpayments_webhook hm512 sha parse secret st raw sig =
      (Except.ok (WebhookResp.orderUpdated oid
          (applyOrderStatus ord payload.status (pyOr payload.transaction_id payload.txid)).status
          (applyOrderStatus ord payload.status (pyOr payload.transaction_id payload.txid)).payout_txid),
        { st1 with orders := updateOrders st1.orders oid (applyOrderStatus ord payload.status (pyOr payload.transaction_id payload.txid)) }) ∧
    (applyOrderStatus ord payload.status (pyOr payload.transaction_id payload.txid)).status =
      (if payload.status = some "finished" then "completed"
       else if payload.status = some "processing" ∨ payload.status = some "pending" ∨
           payload.status = some "confirming" then "queued"
       else if payload.status = some "failed" ∨ payload.status = some "canceled" then "failed"
       else ord.status) ∧
    (applyOrderStatus ord payload.status (pyOr payload.transaction_id payload.txid)).payout_txid =
      (if payload.status = some "finished" ∧
          truthy (pyOr payload.transaction_id payload.txid) = true
       then pyOr payload.transaction_id payload.txid else ord.payout_txid) := by
  have hne : e ≠ "" := by
    intro h
    rw [h] at hpre
    exact absurd hpre (by decide)
  refine ⟨?_, ?_, ?_⟩
  · unfold nowpayments_webhook
    rw [hins]
    dsimp only
    rw [hver]
    simp only [if_true]
    rw [hparse]
    unfold processVerified
    dsimp only
    rw [hext]
    dsimp only
    rw [if_pos hne]
    unfold parseOrderId
    rw [hpre]
    simp only [if_true]
    rw [hoid]
    dsimp only
    rw [if_pos hnz]
    unfold orderBranch
    rw [hfind]
  · unfold applyOrderStatus
    split_ifs <;> simp_all
  · unfold applyOrderStatus
    by_cases h1 : payload.status = some "finished"
    · by_cases ht : truthy (pyOr payload.transaction_id payload.txid) = true
      · simp [h1, ht]
      · simp [h1, ht]
    · split_ifs <;> simp_all

/-- C2 counterexample. Two concrete refutations of the claim "whenever the
`x-nowpayments-sig` header does not equal the HMAC hex digest of the raw body,
the handler raises 401 and no Order row is modified", on `main.py`:
(a) an UPPERCASE rendering of the correct digest differs from the digest yet
is accepted (`.lower()` is applied to both sides) and the order row is
updated; (b) a redelivered body with a wrong signature is answered with a
200 duplicate acknowledgement, not 401. -/
theorem C2_webhook_401_counterexample :
    ("AB" ≠ hexdigest ((fun _ _ => [171]) "sec" ([] : List Nat)) ∧
      nowpayments_webhook (fun _ _ => [171]) (fun _ => "h1")
        (fun _ => some ⟨some "finished", some "t1", none, some "order_1", none, none⟩)
        "sec" ⟨[⟨1, 0, "NENO", 1, 2, 2, "CRYPTO", none, none, none, none, "queued", none⟩], [], []⟩
        [] "AB"
      = (Except.ok (WebhookResp.orderUpdated 1 "completed" (some "t1")),
         ⟨[⟨1, 0, "NENO", 1, 2, 2, "CRYPTO", none, none, none, none, "completed", some "t1"⟩], [],
          [⟨"nowpayments", "AB", "h1"⟩]⟩)) ∧
    ("bad" ≠ hexdigest ((fun _ _ => [171]) "sec" ([] : List Nat)) ∧
      nowpayments_webhook (fun _ _ => [171]) (fun _ => "h1") (fun _ => none) "sec"
        ⟨[], [], [⟨"nowpayments", "x", "h1"⟩]⟩ [] "bad"
      = (Except.ok WebhookResp.duplicate, ⟨[], [], [⟨"nowpayments", "x", "h1"⟩]⟩)) := by
  exact ⟨⟨by decide, by rfl⟩, ⟨by decide, by rfl⟩⟩

/-- Witness for C4 at a concrete input: a verified `processing` webhook for
`order_7` moves the stored order from `created` to `queued`. -/
theorem C4_webhook_order_status_mapping_witness :
    nowpayments_webhook (fun _ _ => [171]) (fun _ => "h1")
        (fun _ => some ⟨some "processing", none, none, some "order_7", none, none⟩) "sec"
        ⟨[⟨7, 0, "NENO", 1, 2, 2, "CRYPTO", none, none, none, none, "created", none⟩], [], []⟩
        [] "ab"
      = (Except.ok (WebhookResp.orderUpdated 7 "queued" none),
         ⟨[⟨7, 0, "NENO", 1, 2, 2, "CRYPTO", none, none, none, none, "queued", none⟩], [],
          [⟨"nowpayments", "ab", "h1"⟩]⟩) :=
  (C4_webhook_order_status_mapping (fun _ _ => [171]) (fun _ => "h1")
    (fun _ => some ⟨some "processing", none, none, some "order_7", none, none⟩) "sec"
    ⟨[⟨7, 0, "NENO", 1, 2, 2, "CRYPTO", none, none, none, none, "created", none⟩], [], []⟩
    ⟨[⟨7, 0, "NENO", 1, 2, 2, "CRYPTO", none, none, none, none, "created", none⟩], [],
      [⟨"nowpayments", "ab", "h1"⟩]⟩
    [] "ab" ⟨some "processing", none, none, some "order_7", none, none⟩ "order_7" 7
    ⟨7, 0, "NENO", 1, 2, 2, "CRYPTO", none, none, none, none, "created", none⟩
    (by decide) (by decide) rfl (by decide) (by decide) (by decide) (by decide) (by decide)).1

lemma secure_compare_beq (fb : Bool) (a b : String) :
    secure_compare fb a b = (a == b) := by
  cases fb <;> simp [secure_compare, secure_compare_fallback_eq, compareDigest]

lemma insertWebhookEvent_some_eq (st : MainState) (sig h : String) (st1 : MainState)
    (hins : insertWebhookEvent st sig h = some st1) :
    st1 = { st with events := st.events ++ [⟨"nowpayments", sig, h⟩] } := by
  unfold insertWebhookEvent at hins
  split at hins
  · simp at hins
  · cases hins
    rfl

/-- C2 amended: with a configured secret, the router IPN handler rejects with
401 (leaving the store untouched) every request whose header differs from the
computed digest, including an empty header; the `main.py` handler does the
same for a first delivery (not yet recorded in `webhook_events`) whose header
differs CASE-INSENSITIVELY from the digest — the dedup row is still recorded,
but no `Order` or `Price` row changes. -/
theorem C2_amended_webhook_401 :
    (∀ (fb : Bool) (hm : String → List Nat → List Nat) (secret env : String)
        (parse : List Nat → Option RouterPayload) (st : OfframpState)
        (raw : List Nat) (sig : String),
      secret ≠ "" →
      (sig = "" ∨ sig ≠ compute_sig hm secret env raw) →
      nowpayments_ipn fb hm secret env parse st raw sig
        = (Except.error (401, "Firma IPN non valida"), st)) ∧
    (∀ (hm512 : String → List Nat → List Nat) (sha : List Nat → String)
        (parse : List Nat → Option IpnPayload) (secret : String)
        (st st1 : MainState) (raw : List Nat) (sig : String),
      insertWebhookEvent st sig (sha raw) = some st1 →
      (sig = "" ∨ pyLower sig ≠ pyLower (hexdigest (hm512 secret raw))) →
      nowpayments_webhook hm512 sha parse secret st raw sig
        = (Except.error (401, "Invalid signature"), st1) ∧
      st1.orders = st.orders ∧ st1.prices = st.prices) := by
  constructor
  · intro fb hm secret env parse st raw sig hsec hbad
    unfold nowpayments_ipn
    rw [if_neg (by simp [hsec])]
    rw [if_pos]
    rcases hbad with rfl | hne
    · right
      left
      rfl
    · right
      right
      rw [secure_compare_beq]
      exact beq_eq_false_iff_ne.mpr fun h => hne h.symm
  · intro hm512 sha parse secret st st1 raw sig hins hbad
    have hver : verify_nowpayments_signature hm512 secret raw sig = false := by
      unfold verify_nowpayments_signature
      rcases hbad with rfl | hne
      · simp
      · by_cases hs : sig = ""
        · rw [if_pos hs]
        · rw [if_neg hs]
          unfold compareDigest
          exact beq_eq_false_iff_ne.mpr fun h => hne h.symm
    refine ⟨?_, ?_, ?_⟩
    · unfold nowpayments_webhook
      rw [hins]
      dsimp only
      rw [hver]
      simp
    · rw [insertWebhookEvent_some_eq st sig (sha raw) st1 hins]
    · rw [insertWebhookEvent_some_eq st sig (sha raw) st1 hins]

/-- Witness for the amended C2 at concrete inputs: a wrong signature is
rejected with 401 by both handlers, the router store untouched, the `main.py`
store extended only by the dedup row. -/
theorem C2_amended_webhook_401_witness :
    (nowpayments_ipn false (fun _ _ => [171]) "sec" "" (fun _ => none)
        ⟨[], []⟩ [] "xx" = (Except.error (401, "Firma IPN non valida"), ⟨[], []⟩)) ∧
    (nowpayments_webhook (fun _ _ => [171]) (fun _ => "h1") (fun _ => none) "sec"
        ⟨[], [], []⟩ [] "xx"
      = (Except.error (401, "Invalid signature"), ⟨[], [], [⟨"nowpayments", "xx", "h1"⟩]⟩)) :=
  ⟨C2_amended_webhook_401.1 false (fun _ _ => [171]) "sec" "" (fun _ => none)
      ⟨[], []⟩ [] "xx" (by decide) (by decide),
   (C2_amended_webhook_401.2 (fun _ _ => [171]) (fun _ => "h1") (fun _ => none) "sec"
      ⟨[], [], []⟩ ⟨[], [], [⟨"nowpayments", "xx", "h1"⟩]⟩ [] "xx" (by decide)
      (by decide)).1⟩

/-- C5: `POST /offramp/create-order` fails with 404 and leaves the store
unchanged when the upper-cased token has no listing; otherwise it inserts one
`sales` row with status `created`, the listing's `price_eur`, and
`eur_amount = price_eur * amount_tokens`, and the response reports the same
`order_id`, `status`, `eur_amount` and `price_eur`. -/
theorem C5_create_order_spec (now : Nat) (st : OfframpState) (body : CreateOrderIn) :
    (st.listings.find? (fun l => l.token_symbol == pyUpper body.token_symbol) = none →
      create_order now st body = (Except.error (404, "Listing non trovato"), st)) ∧
    (∀ row, st.listings.find? (fun l => l.token_symbol == pyUpper body.token_symbol) = some row →
      create_order now st body =
        (Except.ok { order_id := nextSaleId st.sales, status := "created",
                     eur_amount := row.price_eur * body.amount_tokens,
                     price_eur := row.price_eur, token_symbol := pyUpper body.token_symbol,
                     redirect_url := pyStrOrEmpty body.redirect_url },
         { st with sales := st.sales ++
            [{ id := nextSaleId st.sales, token_symbol := pyUpper body.token_symbol,
               amount_tokens := body.amount_tokens, price_eur := row.price_eur,
               eur_amount := row.price_eur * body.amount_tokens, iban := body.iban,
               beneficiary_name := body.beneficiary_name, status := "created",
               nowpayments_payout_id := none, redirect_url := pyStrOrEmpty body.redirect_url,
               created_at := now, updated_at := now }] })) := by
  constructor
  · intro h
    unfold create_order
    rw [h]
  · intro row h
    unfold create_order
    rw [h]

/-- Witness for C5: with a listed token at 2 EUR, ordering 3 tokens creates a
6 EUR sale; with no listing the endpoint 404s leaving the store unchanged. -/
theorem C5_create_order_spec_witness :
    create_order 0 ⟨[⟨"NENO", 2, 10, 0⟩], []⟩ ⟨"neno", 3, "IT00", "Mario", some ""⟩
      = (Except.ok ⟨1, "created", 2 * 3, 2, "NENO", ""⟩,
         ⟨[⟨"NENO", 2, 10, 0⟩],
          [⟨1, "NENO", 3, 2, 2 * 3, "IT00", "Mario", "created", none, "", 0, 0⟩]⟩) ∧
    create_order 0 ⟨[], []⟩ ⟨"neno", 3, "IT00", "Mario", some ""⟩
      = (Except.error (404, "Listing non trovato"), ⟨[], []⟩) :=
  ⟨(C5_create_order_spec 0 ⟨[⟨"NENO", 2, 10, 0⟩], []⟩
      ⟨"neno", 3, "IT00", "Mario", some ""⟩).2 ⟨"NENO", 2, 10, 0⟩ (by decide),
   (C5_create_order_spec 0 ⟨[], []⟩ ⟨"neno", 3, "IT00", "Mario", some ""⟩).1 (by decide)⟩

/-- C6: when both attempted URLs answer with a non-2xx status, the helper
raises HTTP 502 whose detail carries both decoded bodies and both status
codes; `trigger_payout` propagates it with the store unchanged, after exactly
the two POSTs (identical payloads, no retry). -/
theorem C6_provider_rejection_propagates (now : Nat) (bankExtra : List (String × JVal))
    (baseUrl : String) (st : OfframpState) (order_id : Nat) (r1 r2 : HttpResponse)
    (sale : Sale)
    (hfind : st.sales.find? (fun s => s.id == order_id) = some sale)
    (hstat : sale.status = "created" ∨ sale.status = "failed")
    (hiban : sale.iban ≠ "") (hname : sale.beneficiary_name ≠ "")
    (h1 : ¬(200 ≤ r1.status ∧ r1.status ≤ 299))
    (h2 : ¬(200 ≤ r2.status ∧ r2.status ≤ 299)) :
    trigger_payout now bankExtra baseUrl st order_id r1 r2
      = (Except.error (502, TriggerDetail.providerError r1.data r2.data r1.status r2.status),
         st,
         [(baseUrl ++ "/payout", payoutPayloadOf bankExtra order_id sale),
          (baseUrl ++ "/payouts", payoutPayloadOf bankExtra order_id sale)]) := by
  have hr1 : ¬(r1.status = 200 ∨ r1.status = 201) := by omega
  have hr2 : ¬(r2.status = 200 ∨ r2.status = 201) := by omega
  have hcall : call_nowpayments_payout baseUrl (payoutPayloadOf bankExtra order_id sale) r1 r2
      = (Except.error (r1.data, r2.data, r1.status, r2.status),
         [(baseUrl ++ "/payout", payoutPayloadOf bankExtra order_id sale),
          (baseUrl ++ "/payouts", payoutPayloadOf bankExtra order_id sale)]) := by
    unfold call_nowpayments_payout
    rw [if_neg hr1, if_neg hr2]
  unfold trigger_payout
  rw [hfind]
  dsimp only
  rw [if_neg (by rcases hstat with h | h <;> simp [h])]
  rw [if_neg (by simp [hiban, hname])]
  rw [hcall]

/-- Witness for C6: a sale in status `created` with both provider responses
at 500 yields the 502 provider error, an unchanged store, and exactly the two
recorded POSTs. -/
theorem C6_provider_rejection_propagates_witness :
    trigger_payout 9 [] "https://api" ⟨[], [⟨1, "NENO", 3, 2, 6, "IT00", "Mario", "created", none, "", 0, 0⟩]⟩ 1
        ⟨500, {}⟩ ⟨500, {}⟩
      = (Except.error (502, TriggerDetail.providerError {} {} 500 500),
         ⟨[], [⟨1, "NENO", 3, 2, 6, "IT00", "Mario", "created", none, "", 0, 0⟩]⟩,
         [("https://api/payout", payoutPayloadOf [] 1 ⟨1, "NENO", 3, 2, 6, "IT00", "Mario", "created", none, "", 0, 0⟩),
          ("https://api/payouts", payoutPayloadOf [] 1 ⟨1, "NENO", 3, 2, 6, "IT00", "Mario", "created", none, "", 0, 0⟩)]) :=
  C6_provider_rejection_propagates 9 [] "https://api"
    ⟨[], [⟨1, "NENO", 3, 2, 6, "IT00", "Mario", "created", none, "", 0, 0⟩]⟩ 1
    ⟨500, {}⟩ ⟨500, {}⟩ ⟨1, "NENO", 3, 2, 6, "IT00", "Mario", "created", none, "", 0, 0⟩
    (by decide) (by decide) (by decide) (by decide) (by decide) (by decide)

/-- C7: `create_bank_payout` always POSTs `/payout` first; it POSTs the
identical payload to `/payouts` exactly when the first attempt fails with
status 404, 405 or 422; any other failing (`>= 400`) status is raised without
a second attempt; and at most two HTTP calls are ever issued. -/
theorem C7_create_bank_payout_fallback (bankExtra : List (String × JVal))
    (amount_eur : ℚ) (iban name reference : String) (r1 r2 : HttpResponse) :
    ((create_bank_payout bankExtra amount_eur iban name reference r1 r2).2.head?
      = some ("/payout", ⟨[build_withdrawal bankExtra amount_eur iban name reference]⟩)) ∧
    ((create_bank_payout bankExtra amount_eur iban name reference r1 r2).2
        = [("/payout", ⟨[build_withdrawal bankExtra amount_eur iban name reference]⟩),
           ("/payouts", ⟨[build_withdrawal bankExtra amount_eur iban name reference]⟩)]
      ↔ (r1.status = 404 ∨ r1.status = 405 ∨ r1.status = 422)) ∧
    (400 ≤ r1.status → r1.status ≠ 404 → r1.status ≠ 405 → r1.status ≠ 422 →
      (create_bank_payout bankExtra amount_eur iban name reference r1 r2).1
          = Except.error (r1.status, r1.data) ∧
      (create_bank_payout bankExtra amount_eur iban name reference r1 r2).2
          = [("/payout", ⟨[build_withdrawal bankExtra amount_eur iban name reference]⟩)]) ∧
    (create_bank_payout bankExtra amount_eur iban name reference r1 r2).2.length ≤ 2 := by
  unfold create_bank_payout
  split_ifs with h1 h2 h3
  · exact ⟨rfl, iff_of_true rfl h2, fun _ hn4 hn5 hn6 => by rcases h2 with h | h | h <;> simp_all,
      by simp⟩
  · exact ⟨rfl, iff_of_true rfl h2, fun _ hn4 hn5 hn6 => by rcases h2 with h | h | h <;> simp_all,
      by simp⟩
  · exact ⟨rfl, iff_of_false (by simp) h2, fun _ _ _ _ => ⟨rfl, rfl⟩, by simp⟩
  · exact ⟨rfl, iff_of_false (by simp) (by omega), fun h400 _ _ _ => absurd h400 h1, by simp⟩

/-- Witness for C7: a 500 on `/payout` is raised as-is after a single POST. -/
theorem C7_create_bank_payout_fallback_witness :
    (create_bank_payout [] 5 "IT00" "Mario" "order_1" ⟨500, {}⟩ ⟨200, {}⟩).1
        = Except.error (500, {}) ∧
    (create_bank_payout [] 5 "IT00" "Mario" "order_1" ⟨500, {}⟩ ⟨200, {}⟩).2
        = [("/payout", ⟨[build_withdrawal [] 5 "IT00" "Mario" "order_1"]⟩)] :=
  (C7_create_bank_payout_fallback [] 5 "IT00" "Mario" "order_1" ⟨500, {}⟩ ⟨200, {}⟩).2.2.1
    (by decide) (by decide) (by decide) (by decide)

lemma call_nowpayments_payout_ok (baseUrl : String) (p : PayoutPayload)
    (r1 r2 : HttpResponse) (res : NPData) (reqs : List (String × PayoutPayload))
    (h : call_nowpayments_payout baseUrl p r1 r2 = (Except.ok res, reqs)) :
    (r1.status = 200 ∨ r1.status = 201 ∨ r2.status = 200 ∨ r2.status = 201) ∧
    (res = r1.data ∨ res = r2.data) := by
  unfold call_nowpayments_payout at h
  split_ifs at h with h1 h2
  · rw [Prod.mk.injEq] at h
    exact ⟨by tauto, Or.inl (Except.ok.inj h.1).symm⟩
  · rw [Prod.mk.injEq] at h
    exact ⟨by tauto, Or.inr (Except.ok.inj h.1).symm⟩
  · rw [Prod.mk.injEq] at h
    exact absurd h.1 (by simp)

lemma trigger_payout_state_cases (now : Nat) (bankExtra : List (String × JVal))
    (baseUrl : String) (st : OfframpState) (order_id : Nat) (r1 r2 : HttpResponse) :
    (trigger_payout now bankExtra baseUrl st order_id r1 r2).2.1 = st ∨
    (∃ sale pid res,
      st.sales.find? (fun s => s.id == order_id) = some sale ∧
      (r1.status = 200 ∨ r1.status = 201 ∨ r2.status = 200 ∨ r2.status = 201) ∧
      (res = r1.data ∨ res = r2.data) ∧
      extractPayoutId res = some pid ∧
      (trigger_payout now bankExtra baseUrl st order_id r1 r2).1
        = Except.ok (TriggerResp.updated
            { sale with nowpayments_payout_id := some pid, status := "payout_pending",
                        updated_at := now } res) ∧
      (trigger_payout now bankExtra baseUrl st order_id r1 r2).2.1
        = { st with sales := st.sales.map fun s =>
            if s.id = order_id then
              { sale with nowpayments_payout_id := some pid, status := "payout_pending",
                          updated_at := now }
            else s }) := by
  unfold trigger_payout
  cases hfind : st.sales.find? (fun s => s.id == order_id) with
  | none => exact Or.inl rfl
  | some sale =>
    dsimp only
    split_ifs with hc1 hc2
    · exact Or.inl rfl
    · exact Or.inl rfl
    · cases hcall : call_nowpayments_payout baseUrl (payoutPayloadOf bankExtra order_id sale) r1 r2 with
      | mk fst reqs =>
        cases fst with
        | error e =>
          obtain ⟨d1, d2, s1, s2⟩ := e
          exact Or.inl rfl
        | ok res =>
          cases hex : extractPayoutId res with
          | none =>
            dsimp only
            rw [hex]
            exact Or.inl rfl
          | some pid =>
            right
            obtain ⟨h2xx, hsrc⟩ := call_nowpayments_payout_ok baseUrl _ r1 r2 res reqs hcall
            refine ⟨sale, pid, res, rfl, h2xx, hsrc, hex, ?_, ?_⟩ <;>
              dsimp only <;> rw [hex]

/-- C9: the trigger-payout endpoint is guarded for idempotency and atomic on
error: a sale whose status is neither `created` nor `failed` is returned
untouched with no provider POST issued; every error outcome leaves the store
unchanged; and the store changes only when some attempt returned 2xx with an
extractable payout id, in which case the sale's status becomes
`payout_pending` with that id recorded. -/
theorem C9_trigger_payout_idempotency_atomicity (now : Nat)
    (bankExtra : List (String × JVal)) (baseUrl : String) (st : OfframpState)
    (order_id : Nat) (r1 r2 : HttpResponse) :
    (∀ sale, st.sales.find? (fun s => s.id == order_id) = some sale →
      sale.status ≠ "created" → sale.status ≠ "failed" →
      trigger_payout now bankExtra baseUrl st order_id r1 r2
        = (Except.ok (TriggerResp.row sale), st, [])) ∧
    (∀ err, (trigger_payout now bankExtra baseUrl st order_id r1 r2).1 = Except.error err →
      (trigger_payout now bankExtra baseUrl st order_id r1 r2).2.1 = st) ∧
    ((trigger_payout now bankExtra baseUrl st order_id r1 r2).2.1 ≠ st →
      ∃ sale pid res,
        st.sales.find? (fun s => s.id == order_id) = some sale ∧
        (r1.status = 200 ∨ r1.status = 201 ∨ r2.status = 200 ∨ r2.status = 201) ∧
        (res = r1.data ∨ res = r2.data) ∧
        extractPayoutId res = some pid ∧
        (trigger_payout now bankExtra baseUrl st order_id r1 r2).1
          = Except.ok (TriggerResp.updated
              { sale with nowpayments_payout_id := some pid, status := "payout_pending",
                          updated_at := now } res) ∧
        (trigger_payout now bankExtra baseUrl st order_id r1 r2).2.1
          = { st with sales := st.sales.map fun s =>
              if s.id = order_id then
                { sale with nowpayments_payout_id := some pid, status := "payout_pending",
                            updated_at := now }
              else s }) := by
  refine ⟨?_, ?_, ?_⟩
  · intro sale hfind hs1 hs2
    unfold trigger_payout
    rw [hfind]
    dsimp only
    rw [if_pos ⟨hs1, hs2⟩]
  · intro err herr
    rcases trigger_payout_state_cases now bankExtra baseUrl st order_id r1 r2 with h | h
    · exact h
    · obtain ⟨sale, pid, res, -, -, -, -, hok, -⟩ := h
      rw [herr] at hok
      exact absurd hok (by simp)
  · intro hne
    rcases trigger_payout_state_cases now bankExtra baseUrl st order_id r1 r2 with h | h
    · exact absurd h hne
    · exact h

/-- Witness for C9: a sale already in `payout_pending` is returned unchanged
with no POST issued; and a 404 lookup error leaves the store unchanged. -/
theorem C9_trigger_payout_idempotency_atomicity_witness :
    trigger_payout 0 [] "b" ⟨[], [⟨1, "NENO", 3, 2, 6, "IT00", "Mario", "payout_pending", some "p1", "", 0, 0⟩]⟩ 1
        ⟨500, {}⟩ ⟨500, {}⟩
      = (Except.ok (TriggerResp.row ⟨1, "NENO", 3, 2, 6, "IT00", "Mario", "payout_pending", some "p1", "", 0, 0⟩),
         ⟨[], [⟨1, "NENO", 3, 2, 6, "IT00", "Mario", "payout_pending", some "p1", "", 0, 0⟩]⟩, []) :=
  (C9_trigger_payout_idempotency_atomicity 0 [] "b"
      ⟨[], [⟨1, "NENO", 3, 2, 6, "IT00", "Mario", "payout_pending", some "p1", "", 0, 0⟩]⟩ 1
      ⟨500, {}⟩ ⟨500, {}⟩).1
    ⟨1, "NENO", 3, 2, 6, "IT00", "Mario", "payout_pending", some "p1", "", 0, 0⟩
    (by decide) (by decide) (by decide)

lemma call_nowpayments_payout_payloads (baseUrl : String) (p : PayoutPayload)
    (r1 r2 : HttpResponse) :
    ∀ q ∈ (call_nowpayments_payout baseUrl p r1 r2).2, q.2 = p := by
  unfold call_nowpayments_payout
  split_ifs <;> intro q hq <;> simp only [List.mem_cons, List.mem_singleton] at hq <;>
    rcases hq with rfl | hq <;> first | rfl | (rcases hq with rfl | hq) <;>
      first | rfl | simp_all

/-- C8 counterexample. The Stripe card-payout path does apply a precision
adjustment before sending: the cents amount `int(round(amount_eur * 100))` it
transmits for `amount_eur = 1/3` is 33, which is not the raw product
`(1/3) * 100`. -/
theorem C8_stripe_rounding_counterexample :
    stripe_payout_amount_cents (1 / 3) = 33 ∧
    ((33 : ℚ) ≠ (1 / 3 : ℚ) * 100) := by
  constructor
  · unfold stripe_payout_amount_cents python_round_half_even
    have hf : ⌊(1 / 3 : ℚ) * 100⌋ = 33 := by
      rw [Int.floor_eq_iff]
      norm_num
    rw [hf]
    norm_num
  · norm_num

lemma find_key_map_override (k k1 : String) (v : JVal) (h : k1 ≠ k) :
    ∀ d : List (String × JVal),
      List.find? (fun p => p.1 == k) (d.map fun p => if p.1 = k1 then (k1, v) else p)
        = List.find? (fun p => p.1 == k) d := by
  intro d
  induction d with
  | nil => rfl
  | cons q d ih =>
    rw [List.map_cons]
    by_cases hq : q.1 = k1
    · have h1 : (k1 == k) = false := beq_eq_false_iff_ne.mpr h
      have h2 : (q.1 == k) = false := by
        rw [hq]
        exact h1
      rw [if_pos hq, List.find?_cons, List.find?_cons]
      simp only [h1, h2]
      exact ih
    · rw [if_neg hq, List.find?_cons, List.find?_cons]
      cases q.1 == k
      · exact ih
      · rfl

lemma find_append_singleton_ne (k k1 : String) (v : JVal) (h : k1 ≠ k) :
    ∀ d : List (String × JVal),
      List.find? (fun p => p.1 == k) (d ++ [(k1, v)])
        = List.find? (fun p => p.1 == k) d := by
  intro d
  induction d with
  | nil =>
    have h1 : (k1 == k) = false := beq_eq_false_iff_ne.mpr h
    simp [List.find?, h1]
  | cons q d ih =>
    rw [List.cons_append, List.find?_cons, List.find?_cons]
    cases q.1 == k
    · exact ih
    · rfl

lemma dictGet_dictSet_ne (d : List (String × JVal)) (k k1 : String) (v : JVal)
    (h : k1 ≠ k) : dictGet (dictSet d k1 v) k = dictGet d k := by
  unfold dictGet dictSet
  split_ifs
  · rw [find_key_map_override k k1 v h d]
  · rw [find_append_singleton_ne k k1 v h d]

lemma dictGet_dictUpdate_no_key (k : String) :
    ∀ (e d : List (String × JVal)), (∀ p ∈ e, p.1 ≠ k) →
      dictGet (dictUpdate d e) k = dictGet d k := by
  intro e
  induction e with
  | nil =>
    intro d _
    rfl
  | cons p e ih =>
    intro d hk
    have h1 : dictUpdate d (p :: e) = dictUpdate (dictSet d p.1 p.2) e := rfl
    rw [h1, ih (dictSet d p.1 p.2) fun q hq => hk q (List.mem_cons_of_mem _ hq)]
    exact dictGet_dictSet_ne d k p.1 p.2 (hk p (List.mem_cons_self _ _))

/-- C8 amended: every NOWPayments amount computation carries the raw product
with no rounding or precision adjustment — `create_order` stores and returns
`eur_amount = price_eur * amount_tokens` exactly; every POST issued by the
router's `trigger_payout` carries the merged withdrawal dict whose `amount`
is exactly the stored `eur_amount` whenever the configured bank-extra JSON
does not itself override the `amount` key; and `main.py`'s `trigger_payout`
and `auto_payout_on_listing` send exactly `est * (1.0 + clamped_bps/10_000)`
(the raw product of the estimate and the slippage multiplier), or the
caller-supplied `crypto_amount` verbatim. The Stripe card payout (see the
counterexample) sends rounded integer cents instead. -/
theorem C8_amended_raw_products :
    (∀ (now : Nat) (st : OfframpState) (body : CreateOrderIn) (row : Listing),
      st.listings.find? (fun l => l.token_symbol == pyUpper body.token_symbol) = some row →
      (create_order now st body).1
        = Except.ok { order_id := nextSaleId st.sales, status := "created",
                      eur_amount := row.price_eur * body.amount_tokens,
                      price_eur := row.price_eur, token_symbol := pyUpper body.token_symbol,
                      redirect_url := pyStrOrEmpty body.redirect_url } ∧
      (create_order now st body).2.sales.map Sale.eur_amount
        = st.sales.map Sale.eur_amount ++ [row.price_eur * body.amount_tokens]) ∧
    (∀ (now : Nat) (bankExtra : List (String × JVal)) (baseUrl : String)
        (st : OfframpState) (order_id : Nat) (r1 r2 : HttpResponse) (sale : Sale),
      st.sales.find? (fun s => s.id == order_id) = some sale →
      ((∀ p ∈ bankExtra, p.1 ≠ "amount") →
        (payoutPayloadOf bankExtra order_id sale).payouts.map (fun d => dictGet d "amount")
          = [some (JVal.n sale.eur_amount)]) ∧
      ∀ q ∈ (trigger_payout now bankExtra baseUrl st order_id r1 r2).2.2,
        q.2 = payoutPayloadOf bankExtra order_id sale) ∧
    (∀ (est a : ℚ) (bps : Int),
      main_trigger_payout_amount none bps est
        = est * (1 + (slippage_clamp bps : ℚ) / 10000) ∧
      main_trigger_payout_amount (some a) bps est = a ∧
      crypto_to_send est bps = est * (1 + (slippage_clamp bps : ℚ) / 10000)) ∧
    (∀ (convert : ℚ → ℚ) (price_eur available_amount : ℚ) (bps : Int),
      auto_payout_sent_amount convert price_eur available_amount bps
        = crypto_to_send (convert (price_eur * available_amount)) bps) := by
  refine ⟨?_, ?_, ?_, ?_⟩
  · intro now st body row h
    unfold create_order
    rw [h]
    exact ⟨rfl, by simp⟩
  · intro now bankExtra baseUrl st order_id r1 r2 sale hfind
    refine ⟨?_, ?_⟩
    · intro hext
      unfold payoutPayloadOf
      simp only [List.map_cons, List.map_nil]
      rw [dictGet_dictUpdate_no_key "amount" bankExtra (baseWithdrawal order_id sale) hext]
      rfl
    · unfold trigger_payout
      rw [hfind]
      dsimp only
      split_ifs with hc1 hc2
      · intro q hq
        simp at hq
      · intro q hq
        simp at hq
      · cases hcall : call_nowpayments_payout baseUrl (payoutPayloadOf bankExtra order_id sale) r1 r2 with
        | mk fst reqs =>
          have hpl : ∀ q ∈ reqs, q.2 = payoutPayloadOf bankExtra order_id sale := by
            intro q hq
            exact call_nowpayments_payout_payloads baseUrl _ r1 r2 q (by rw [hcall]; exact hq)
          cases fst with
          | error e =>
            obtain ⟨d1, d2, s1, s2⟩ := e
            exact hpl
          | ok res =>
            cases hex : extractPayoutId res with
            | none =>
              dsimp only
              rw [hex]
              exact hpl
            | some pid =>
              dsimp only
              rw [hex]
              exact hpl
  · intro est a bps
    refine ⟨?_, rfl, ?_⟩
    · unfold main_trigger_payout_amount slippage_clamp
      rfl
    · unfold crypto_to_send slippage_clamp
      rfl
  · intro convert price_eur available_amount bps
    unfold auto_payout_sent_amount crypto_to_send slippage_clamp
    rfl

/-- Witness for the amended C8: creating an order for 3 tokens listed at
2 EUR stores and returns exactly the product `2 * 3` as `eur_amount`, and the
withdrawal dict built for a 6 EUR sale with no bank-extra override carries
`amount = 6`. -/
theorem C8_amended_raw_products_witness :
    ((create_order 0 ⟨[⟨"NENO", 2, 10, 0⟩], []⟩ ⟨"neno", 3, "IT00", "Mario", some ""⟩).1
      = Except.ok ⟨1, "created", 2 * 3, 2, "NENO", ""⟩ ∧
    (create_order 0 ⟨[⟨"NENO", 2, 10, 0⟩], []⟩ ⟨"neno", 3, "IT00", "Mario", some ""⟩).2.sales.map Sale.eur_amount
      = [2 * 3]) ∧
    (payoutPayloadOf [] 1 ⟨1, "NENO", 3, 2, 6, "IT00", "Mario", "created", none, "", 0, 0⟩).payouts.map
        (fun d => dictGet d "amount")
      = [some (JVal.n 6)] :=
  ⟨C8_amended_raw_products.1 0 ⟨[⟨"NENO", 2, 10, 0⟩], []⟩
    ⟨"neno", 3, "IT00", "Mario", some ""⟩ ⟨"NENO", 2, 10, 0⟩ (by decide),
   (C8_amended_raw_products.2.1 0 [] "b"
      ⟨[], [⟨1, "NENO", 3, 2, 6, "IT00", "Mario", "created", none, "", 0, 0⟩]⟩ 1
      ⟨500, {}⟩ ⟨500, {}⟩ ⟨1, "NENO", 3, 2, 6, "IT00", "Mario", "created", none, "", 0, 0⟩
      (by decide)).1 (by decide)⟩
